import Mathlib

/-!
Verification development for the `json_minimal` library (`src/lib.rs`):
a minimal JSON value model (`enum Json`), a mutation/lookup API
(`add`, `get`, `get_mut`), a serializer (`print`) and a byte-cursor
recursive-descent parser (`parse` and its sub-parsers).

Modelling conventions:
* Rust bytes cast via `as char` are modelled as `Char` (all inputs of
  interest are ASCII, where the cast is the identity on code points);
  input byte sequences are `List Char`, Rust `String`s are `List Char`.
* The `f64` payload of `Json::NUMBER` is modelled as an exact decimal
  `F64` (canonical mantissa times a power of ten): no claim in this
  development depends on binary rounding, on overflow to infinity, or
  on the `inf`/`nan` literal forms (the number sub-parser is only ever
  dispatched on a leading ASCII digit, so those forms are unreachable
  from the parser).
* Rust's `format!` rendering of an `f64` (shortest round-tripping
  decimal) is not modelled; `print` takes the rendering function as an
  explicit parameter `pn`, and every theorem about `print` holds for an
  arbitrary `pn`.
* A Rust panic (an out-of-bounds slice index, or an explicit panic in
  the mutation/lookup API) is modelled as an explicit outcome:
  `PRes.crash` in the parser, `none` in `add`/`get`/`get_mut`.
* The mutually recursive sub-parsers carry a fuel counter for
  structural termination; `PRes.spin` marks fuel exhaustion and is
  never reached for the fuel budget chosen by the top-level `parse`
  on the inputs considered here (each loop iteration of the Rust code
  strictly advances the cursor, so the run length is bounded by the
  input length).
-/

/-- Strip factors of ten from a decimal mantissa, moving them into the
exponent; the fuel bounds the number of strippable factors. -/
def stripTens : Nat → Int → Int → Int × Int
  | 0, m, e => (m, e)
  | Nat.succ f, m, e =>
    if m % 10 = 0 ∧ m ≠ 0 then stripTens f (m / 10) (e + 1) else (m, e)

/-- An exact decimal number `m * 10 ^ e`, in canonical form (built through
`mkF64`: zero is `(0, 0)` and otherwise `m` is not divisible by ten), so
structural equality coincides with equality of the represented values.
This models the `f64` payload of `Json::NUMBER`. -/
structure F64 where
  m : Int
  e : Int
deriving DecidableEq

/-- Canonical constructor for `F64`. -/
def mkF64 (m e : Int) : F64 :=
  if m = 0 then ⟨0, 0⟩
  else
    let p := stripTens m.natAbs m e
    ⟨p.1, p.2⟩

/-- The tagged-union JSON value model, transcribed from `enum Json` in
`src/lib.rs`: `OBJECT` is a named entry, `JSON` an object/"container",
`ARRAY` an array, and `STRING`/`NUMBER`/`BOOL`/`NULL` the scalars.
The `Box` indirection of `OBJECT`'s value is implicit. -/
inductive Json where
  | OBJECT (name : List Char) (value : Json)
  | JSON (values : List Json)
  | ARRAY (values : List Json)
  | STRING (val : List Char)
  | NUMBER (val : F64)
  | BOOL (val : Bool)
  | NULL

/-- `Json::new()`: an empty container. -/
def Json.new : Json := Json.JSON []

/-- The char range `'0'..='9'` used by the parser's dispatch tables. -/
def isDigitCh (c : Char) : Bool := decide ('0' ≤ c) && decide (c ≤ '9')

/-- Longest digit prefix of a character list, with the remainder. -/
def takeDigits : List Char → List Char × List Char
  | [] => ([], [])
  | c :: cs =>
    if isDigitCh c then
      let (ds, r) := takeDigits cs
      (c :: ds, r)
    else ([], c :: cs)

/-- Value of a digit string. -/
def digitsToNat (ds : List Char) : Nat :=
  ds.foldl (fun a c => a * 10 + (c.toNat - 48)) 0

/-- Parse an optional exponent suffix `('e'|'E') sign? digits` which must
consume the rest of the input; an empty remainder means exponent `0`. -/
def parseExpPart : List Char → Option Int
  | [] => some 0
  | c :: rest =>
    if c = 'e' ∨ c = 'E' then
      let (es, r1) : Int × List Char :=
        match rest with
        | '+' :: t => (1, t)
        | '-' :: t => (-1, t)
        | t => (1, t)
      let (eds, r2) := takeDigits r1
      if eds = [] ∨ r2 ≠ [] then none else some (es * (digitsToNat eds : Int))
    else none

/-- Modelled from Rust's `str::parse::<f64>` as invoked by `parse_number`
in `src/lib.rs`: accepts `sign? (digits '.'? | digits '.' digits |
'.' digits) exp?` and returns the exact decimal value. The
`inf`/`infinity`/`nan` literal forms and binary rounding/overflow are not
modelled: `parse_number` is only dispatched on a leading ASCII digit, and
no claim depends on rounding. -/
def parseF64 (s : List Char) : Option F64 :=
  let (sign, s1) : Int × List Char :=
    match s with
    | '+' :: t => (1, t)
    | '-' :: t => (-1, t)
    | t => (1, t)
  let (ip, s2) := takeDigits s1
  match s2 with
  | '.' :: s3 =>
    let (fp, s4) := takeDigits s3
    if ip = [] ∧ fp = [] then none
    else
      match parseExpPart s4 with
      | none => none
      | some e =>
        some (mkF64 (sign * (digitsToNat (ip ++ fp) : Int)) (e - fp.length))
  | rest =>
    if ip = [] then none
    else
      match parseExpPart rest with
      | none => none
      | some e => some (mkF64 (sign * (digitsToNat ip : Int)) e)

example : parseF64 ['1'] = some ⟨1, 0⟩ := by decide
example : parseF64 ("1.5".toList) = some ⟨15, -1⟩ := by decide
example : parseF64 ("1a".toList) = none := by decide
example : parseF64 ("10".toList) = some ⟨1, 1⟩ := by decide

/-- Outcome of a sub-parser in `src/lib.rs`. `ok` carries the parsed value
and the final cursor (`incr` is passed by mutable reference in Rust);
`err` is `Err((position, message))`; `crash` models a Rust panic from an
out-of-bounds `input[*incr]`; `spin` marks fuel exhaustion (never reached
for the budget chosen by `Json.parse`). -/
inductive PRes where
  | ok (j : Json) (incr : Nat)
  | err (pos : Nat) (msg : String)
  | crash
  | spin

/-- Outcome of the top-level `Json::parse` (which drops the cursor). -/
inductive POut where
  | ok (j : Json)
  | err (pos : Nat) (msg : String)
  | crash
  | spin

/-- Forget the final cursor, as `Json::parse` does when returning the
sub-parser's `Result` directly. -/
def dropIncr : PRes → POut
  | .ok j _ => .ok j
  | .err p m => .err p m
  | .crash => .crash
  | .spin => .spin

/-- The common tail of `parse_number` (`src/lib.rs`): parse the
accumulated text as an `f64`, reporting `Error parsing number.` at the
current cursor on failure. -/
def number_result (acc : List Char) (incr : Nat) : PRes :=
  match parseF64 acc with
  | some num => .ok (.NUMBER num) incr
  | none => .err incr "Error parsing number."

/-- The common tail of `parse_bool` (`src/lib.rs`): the accumulated text
must be exactly `true` or `false`. -/
def bool_result (acc : List Char) (incr : Nat) : PRes :=
  if acc = ['t', 'r', 'u', 'e'] then .ok (.BOOL true) incr
  else if acc = ['f', 'a', 'l', 's', 'e'] then .ok (.BOOL false) incr
  else .err incr "Error parsing bool."

/-- The common tail of `parse_null` (`src/lib.rs`): the accumulated text
must be exactly `null`. -/
def null_result (acc : List Char) (incr : Nat) : PRes :=
  if acc = ['n', 'u', 'l', 'l'] then .ok .NULL incr
  else .err incr "Error parsing null."

/-- The loop of `Json::parse_number` (`src/lib.rs`): accumulate characters
until a delimiter (`}`/`]`/`,`) or the end of input, then parse the text as
an `f64`. The loop-top read `input[*incr]` is unchecked in Rust, hence the
`crash` case. -/
def parse_number_loop : Nat → List Char → Nat → List Char → PRes
  | 0, _, _, _ => .spin
  | Nat.succ f, input, incr, acc =>
    match input[incr]? with
    | none => .crash
    | some c =>
      if c = '\x7d' ∨ c = ']' ∨ c = ',' then number_result acc incr
      else
        let acc := acc ++ [c]
        let incr := incr + 1
        if incr < input.length then parse_number_loop f input incr acc
        else number_result acc incr

/-- `Json::parse_number` (`src/lib.rs`), starting with an empty accumulator. -/
def parse_number (fuel : Nat) (input : List Char) (incr : Nat) : PRes :=
  parse_number_loop fuel input incr []

/-- The loop of `Json::parse_bool` (`src/lib.rs`). -/
def parse_bool_loop : Nat → List Char → Nat → List Char → PRes
  | 0, _, _, _ => .spin
  | Nat.succ f, input, incr, acc =>
    match input[incr]? with
    | none => .crash
    | some c =>
      if c = ',' ∨ c = ']' ∨ c = '\x7d' then bool_result acc incr
      else
        let acc := acc ++ [c]
        let incr := incr + 1
        if incr < input.length then parse_bool_loop f input incr acc
        else bool_result acc incr

/-- `Json::parse_bool` (`src/lib.rs`). -/
def parse_bool (fuel : Nat) (input : List Char) (incr : Nat) : PRes :=
  parse_bool_loop fuel input incr []

/-- The loop of `Json::parse_null` (`src/lib.rs`). -/
def parse_null_loop : Nat → List Char → Nat → List Char → PRes
  | 0, _, _, _ => .spin
  | Nat.succ f, input, incr, acc =>
    match input[incr]? with
    | none => .crash
    | some c =>
      if c = ',' ∨ c = ']' ∨ c = '\x7d' then null_result acc incr
      else
        let acc := acc ++ [c]
        let incr := incr + 1
        if incr < input.length then parse_null_loop f input incr acc
        else null_result acc incr

/-- `Json::parse_null` (`src/lib.rs`). -/
def parse_null (fuel : Nat) (input : List Char) (incr : Nat) : PRes :=
  parse_null_loop fuel input incr []

/-- `Json::parse_object` wraps each sub-parser result in an `OBJECT` with
the given name, propagating errors (`match ... Ok/Err` in the source). -/
def wrapObject (name : List Char) : PRes → PRes
  | .ok j i => .ok (.OBJECT name j) i
  | r => r

mutual

/-- `Json::parse_json` (`src/lib.rs`): expects `{`, advances past it,
checks the cursor is still in bounds, then runs the object-body loop. -/
def parse_json (fuel : Nat) (input : List Char) (incr : Nat) : PRes :=
  match fuel with
  | 0 => .spin
  | Nat.succ f =>
    match input[incr]? with
    | none => .crash
    | some c =>
      if c = '\x7b' then
        let incr := incr + 1
        if incr < input.length then parse_json_loop f input incr []
        else .err incr "Error parsing json."
      else .err incr "Error parsing json."
termination_by structural fuel

/-- The object-body loop of `Json::parse_json` (`src/lib.rs`): skips `,`,
dispatches values on one-character lookahead (including a `{` branch that
pushes a raw nested container), terminates on `}`. The loop-top read
`input[*incr]` is unchecked in Rust, hence the `crash` case. -/
def parse_json_loop (fuel : Nat) (input : List Char) (incr : Nat)
    (result : List Json) : PRes :=
  match fuel with
  | 0 => .spin
  | Nat.succ f =>
    match input[incr]? with
    | none => .crash
    | some c =>
      if c = ',' then parse_json_loop f input (incr + 1) result
      else if c = '\"' then
        match parse_string f input incr with
        | .ok j i => parse_json_loop f input i (result ++ [j])
        | r => r
      else if c = '[' then
        match parse_array f input incr with
        | .ok j i => parse_json_loop f input i (result ++ [j])
        | r => r
      else if c = 't' ∨ c = 'f' then
        match parse_bool f input incr with
        | .ok j i => parse_json_loop f input i (result ++ [j])
        | r => r
      else if c = 'n' then
        match parse_null f input incr with
        | .ok j i => parse_json_loop f input i (result ++ [j])
        | r => r
      else if isDigitCh c then
        match parse_number f input incr with
        | .ok j i => parse_json_loop f input i (result ++ [j])
        | r => r
      else if c = '\x7d' then .ok (.JSON result) (incr + 1)
      else if c = '\x7b' then
        match parse_json f input incr with
        | .ok j i => parse_json_loop f input i (result ++ [j])
        | r => r
      else .err incr "Error parsing json."
termination_by structural fuel

/-- `Json::parse_array` (`src/lib.rs`): expects `[`, advances past it,
checks the cursor is still in bounds, then runs the array-body loop. -/
def parse_array (fuel : Nat) (input : List Char) (incr : Nat) : PRes :=
  match fuel with
  | 0 => .spin
  | Nat.succ f =>
    match input[incr]? with
    | none => .crash
    | some c =>
      if c = '[' then
        let incr := incr + 1
        if incr < input.length then parse_array_loop f input incr []
        else .err incr "Error parsing array."
      else .err incr "Error parsing array."
termination_by structural fuel

/-- The array-body loop of `Json::parse_array` (`src/lib.rs`): skips `,`,
dispatches any value on one-character lookahead, terminates on `]`. -/
def parse_array_loop (fuel : Nat) (input : List Char) (incr : Nat)
    (result : List Json) : PRes :=
  match fuel with
  | 0 => .spin
  | Nat.succ f =>
    match input[incr]? with
    | none => .crash
    | some c =>
      if c = ',' then parse_array_loop f input (incr + 1) result
      else if c = '\"' then
        match parse_string f input incr with
        | .ok j i => parse_array_loop f input i (result ++ [j])
        | r => r
      else if c = '[' then
        match parse_array f input incr with
        | .ok j i => parse_array_loop f input i (result ++ [j])
        | r => r
      else if c = '\x7b' then
        match parse_json f input incr with
        | .ok j i => parse_array_loop f input i (result ++ [j])
        | r => r
      else if c = 't' ∨ c = 'f' then
        match parse_bool f input incr with
        | .ok j i => parse_array_loop f input i (result ++ [j])
        | r => r
      else if c = 'n' then
        match parse_null f input incr with
        | .ok j i => parse_array_loop f input i (result ++ [j])
        | r => r
      else if isDigitCh c then
        match parse_number f input incr with
        | .ok j i => parse_array_loop f input i (result ++ [j])
        | r => r
      else if c = ']' then .ok (.ARRAY result) (incr + 1)
      else .err incr "Error parsing array."
termination_by structural fuel

/-- `Json::parse_string` (`src/lib.rs`): expects `"`, advances past it,
checks the cursor is still in bounds, then runs the string loop. -/
def parse_string (fuel : Nat) (input : List Char) (incr : Nat) : PRes :=
  match fuel with
  | 0 => .spin
  | Nat.succ f =>
    match input[incr]? with
    | none => .crash
    | some c =>
      if c = '\"' then
        let incr := incr + 1
        if incr < input.length then parse_string_loop f input incr []
        else .err incr "Error parsing string."
      else .err incr "Error parsing string."
termination_by structural fuel

/-- The loop of `Json::parse_string` (`src/lib.rs`): copies bytes verbatim
until a closing quote; if the character immediately after the closing
quote is `:`, control transfers to `parse_object` with the accumulated
text as the field name, otherwise a standalone `STRING` is returned. -/
def parse_string_loop (fuel : Nat) (input : List Char) (incr : Nat)
    (acc : List Char) : PRes :=
  match fuel with
  | 0 => .spin
  | Nat.succ f =>
    match input[incr]? with
    | none => .crash
    | some c =>
      if c = '\"' then
        let incr := incr + 1
        match input[incr]? with
        | some d => if d = ':' then parse_object f input incr acc
                    else .ok (.STRING acc) incr
        | none => .ok (.STRING acc) incr
      else
        let acc := acc ++ [c]
        let incr := incr + 1
        if incr < input.length then parse_string_loop f input incr acc
        else .err incr "Error parsing string."
termination_by structural fuel

/-- `Json::parse_object` (`src/lib.rs`), used exclusively by
`parse_string`: expects `:`, advances past it, checks the cursor, then
dispatches the value on one-character lookahead and wraps it in an
`OBJECT` carrying the already-parsed name. -/
def parse_object (fuel : Nat) (input : List Char) (incr : Nat)
    (name : List Char) : PRes :=
  match fuel with
  | 0 => .spin
  | Nat.succ f =>
    match input[incr]? with
    | none => .crash
    | some c =>
      if c = ':' then
        let incr := incr + 1
        if incr < input.length then
          match input[incr]? with
          | none => .crash
          | some d =>
            if d = '\x7b' then wrapObject name (parse_json f input incr)
            else if d = '[' then wrapObject name (parse_array f input incr)
            else if d = '\"' then wrapObject name (parse_string f input incr)
            else if d = 't' ∨ d = 'f' then wrapObject name (parse_bool f input incr)
            else if d = 'n' then wrapObject name (parse_null f input incr)
            else if isDigitCh d then wrapObject name (parse_number f input incr)
            else .err incr "Error parsing object."
        else .err incr "Error parsing object."
      else .err incr "Error parsing object."
termination_by structural fuel

end

/-- `Json::parse` (`src/lib.rs`): dispatches on the first input character
(`input[0]`, an unchecked index: empty input panics in Rust, modelled as
`crash`) with no whitespace skipping; any character other than `{`, `"`,
`[`, `t`, `f`, `n` or an ASCII digit is an immediate error at offset 0.
The fuel budget exceeds the bound on the number of cursor steps of the
Rust routines, every one of which strictly advances the cursor. -/
def Json.parse (input : List Char) : POut :=
  match input[0]? with
  | none => POut.crash
  | some c =>
    let fuel := input.length * 4 + 16
    if c = '\x7b' then dropIncr (parse_json fuel input 0)
    else if c = '\"' then dropIncr (parse_string fuel input 0)
    else if c = '[' then dropIncr (parse_array fuel input 0)
    else if c = 't' then dropIncr (parse_bool fuel input 0)
    else if c = 'f' then dropIncr (parse_bool fuel input 0)
    else if c = 'n' then dropIncr (parse_null fuel input 0)
    else if isDigitCh c then dropIncr (parse_number fuel input 0)
    else POut.err 0 "Not a valid json format"

mutual

/-- `Json::print` (`src/lib.rs`), with the `f64` renderer abstracted as
`pn` (Rust formats the float with `format!`; no theorem depends on the
rendering). The `JSON` and `ARRAY` branches push the opening bracket,
append each child's text followed by a comma, then `pop` one character
off the accumulated result before pushing the closing bracket — so a
zero-child container pops its own opening bracket. -/
def Json.print (pn : F64 → List Char) : Json → List Char
  | .OBJECT name value => '\"' :: (name ++ ('\"' :: ':' :: Json.print pn value))
  | .JSON values => (('\x7b' :: printChildren pn values).dropLast) ++ ['\x7d']
  | .ARRAY values => (('[' :: printChildren pn values).dropLast) ++ [']']
  | .STRING val => '\"' :: (val ++ ['\"'])
  | .NUMBER val => pn val
  | .BOOL val => if val then ['t', 'r', 'u', 'e'] else ['f', 'a', 'l', 's', 'e']
  | .NULL => ['n', 'u', 'l', 'l']

/-- The `for n in 0..values.len()` body shared by `print`'s `JSON` and
`ARRAY` branches: each child's text followed by `,`. -/
def printChildren (pn : F64 → List Char) : List Json → List Char
  | [] => []
  | c :: cs => Json.print pn c ++ ',' :: printChildren pn cs

end

/-- `Json::add` (`src/lib.rs`): `values.push(...)` on a `JSON` receiver
(except that pushing a raw `JSON` panics), on either collection inside an
`OBJECT` receiver (an `OBJECT` holding a `JSON` refuses a raw `JSON`; an
`OBJECT` holding an `ARRAY` accepts anything; any other held value
panics), and on an `ARRAY` receiver (accepts anything); every other
receiver panics. `none` models the panic; `some` returns the mutated
receiver, which is what the Rust `&mut Json` return value points at. -/
def Json.add : Json → Json → Option Json
  | .JSON values, value =>
    match value with
    | .OBJECT name v => some (.JSON (values ++ [.OBJECT name v]))
    | .JSON _ => none
    | .ARRAY vals => some (.JSON (values ++ [.ARRAY vals]))
    | .STRING val => some (.JSON (values ++ [.STRING val]))
    | .NUMBER val => some (.JSON (values ++ [.NUMBER val]))
    | .BOOL val => some (.JSON (values ++ [.BOOL val]))
    | .NULL => some (.JSON (values ++ [.NULL]))
  | .OBJECT nm obj_val, value =>
    match obj_val with
    | .JSON values =>
      match value with
      | .OBJECT name v => some (.OBJECT nm (.JSON (values ++ [.OBJECT name v])))
      | .JSON _ => none
      | .ARRAY vals => some (.OBJECT nm (.JSON (values ++ [.ARRAY vals])))
      | .STRING val => some (.OBJECT nm (.JSON (values ++ [.STRING val])))
      | .NUMBER val => some (.OBJECT nm (.JSON (values ++ [.NUMBER val])))
      | .BOOL val => some (.OBJECT nm (.JSON (values ++ [.BOOL val])))
      | .NULL => some (.OBJECT nm (.JSON (values ++ [.NULL])))
    | .ARRAY values =>
      match value with
      | .OBJECT name v => some (.OBJECT nm (.ARRAY (values ++ [.OBJECT name v])))
      | .JSON vals => some (.OBJECT nm (.ARRAY (values ++ [.JSON vals])))
      | .ARRAY vals => some (.OBJECT nm (.ARRAY (values ++ [.ARRAY vals])))
      | .STRING val => some (.OBJECT nm (.ARRAY (values ++ [.STRING val])))
      | .NUMBER val => some (.OBJECT nm (.ARRAY (values ++ [.NUMBER val])))
      | .BOOL val => some (.OBJECT nm (.ARRAY (values ++ [.BOOL val])))
      | .NULL => some (.OBJECT nm (.ARRAY (values ++ [.NULL])))
    | _ => none
  | .ARRAY values, value =>
    match value with
    | .OBJECT name v => some (.ARRAY (values ++ [.OBJECT name v]))
    | .JSON vals => some (.ARRAY (values ++ [.JSON vals]))
    | .ARRAY vals => some (.ARRAY (values ++ [.ARRAY vals]))
    | .STRING val => some (.ARRAY (values ++ [.STRING val]))
    | .NUMBER val => some (.ARRAY (values ++ [.NUMBER val]))
    | .BOOL val => some (.ARRAY (values ++ [.BOOL val]))
    | .NULL => some (.ARRAY (values ++ [.NULL]))
  | _, _ => none

/-- The scan `for n in 0..values.len()` of `Json::get` (`src/lib.rs`):
return the first `OBJECT` child whose name equals the search string. -/
def get_scan (search : List Char) : List Json → Option Json
  | [] => none
  | v :: rest =>
    match v with
    | .OBJECT name value =>
      if name = search then some (.OBJECT name value) else get_scan search rest
    | _ => get_scan search rest

/-- `Json::get` (`src/lib.rs`): scan a `JSON` receiver's children, or the
children of the `JSON` held by an `OBJECT` receiver; any other receiver
(or held value) panics, modelled by the outer `none`. -/
def Json.get (j : Json) (search : List Char) : Option (Option Json) :=
  match j with
  | .JSON values => some (get_scan search values)
  | .OBJECT _ value =>
    match value with
    | .JSON values => some (get_scan search values)
    | _ => none
  | _ => none

/-- The scan of `Json::get_mut` (`src/lib.rs`), textually the same loop as
`Json::get`'s but yielding a mutable reference in Rust. -/
def get_mut_scan (search : List Char) : List Json → Option Json
  | [] => none
  | v :: rest =>
    match v with
    | .OBJECT name value =>
      if name = search then some (.OBJECT name value) else get_mut_scan search rest
    | _ => get_mut_scan search rest

/-- `Json::get_mut` (`src/lib.rs`): same receiver discipline and scan as
`Json::get`, returning the selected child (a `&mut` handle in Rust). -/
def Json.get_mut (j : Json) (search : List Char) : Option (Option Json) :=
  match j with
  | .JSON values => some (get_mut_scan search values)
  | .OBJECT _ value =>
    match value with
    | .JSON values => some (get_mut_scan search values)
    | _ => none
  | _ => none

/-- `true` on an `OBJECT` whose name equals `search`: the membership test
of the lookup scans. -/
def isEntryNamed (search : List Char) : Json → Bool
  | .OBJECT name _ => name = search
  | _ => false

/-- The one-character lookahead table of `Json::parse` (`src/lib.rs`):
the characters that dispatch to a sub-parser. -/
def isTokenStart (c : Char) : Bool :=
  decide (c = '\x7b') || decide (c = '\"') || decide (c = '[') ||
  decide (c = 't') || decide (c = 'f') || decide (c = 'n') || isDigitCh c

/-- Child list of the receivers `Json::add` accepts: a `JSON`, an `ARRAY`,
or an `OBJECT` holding one of those; `none` on every other shape. -/
def childrenOf : Json → Option (List Json)
  | .JSON vs => some vs
  | .ARRAY vs => some vs
  | .OBJECT _ (.JSON vs) => some vs
  | .OBJECT _ (.ARRAY vs) => some vs
  | _ => none

/-- Rebuild a receiver around a replacement child list, preserving its
variant shape (and an `OBJECT` receiver's name). -/
def withChildren : Json → List Json → Json
  | .JSON _, vs => .JSON vs
  | .ARRAY _, vs => .ARRAY vs
  | .OBJECT n (.JSON _), vs => .OBJECT n (.JSON vs)
  | .OBJECT n (.ARRAY _), vs => .OBJECT n (.ARRAY vs)
  | j, _ => j

/-- `get_scan` is the first-match-in-insertion-order search. -/
theorem get_scan_eq_find (s : List Char) :
    ∀ vs, get_scan s vs = List.find? (isEntryNamed s) vs := by
  intro vs
  induction vs with
  | nil => rfl
  | cons v rest ih =>
    cases v <;> simp [get_scan, List.find?, isEntryNamed, ih]
    split <;> simp_all

/-- `get_mut_scan` is the first-match-in-insertion-order search. -/
theorem get_mut_scan_eq_find (s : List Char) :
    ∀ vs, get_mut_scan s vs = List.find? (isEntryNamed s) vs := by
  intro vs
  induction vs with
  | nil => rfl
  | cons v rest ih =>
    cases v <;> simp [get_mut_scan, List.find?, isEntryNamed, ih]
    split <;> simp_all

/-- Claim C1. The round-trip `parse(print(tree))` fails for a tree built
purely from the Mutation API: already for the empty Container produced by
`new()` with zero `add` calls (text constraints vacuously met), `print`
yields the single character `\x7d` (the empty-container serialization
defect: the comma-trimming `pop` removes the opening brace), which `parse`
rejects at offset 0 — for every rendering `pn` of the number payloads. -/
theorem roundtrip_fails_on_empty_container (pn : F64 → List Char) :
    Json.print pn Json.new = ['\x7d'] ∧
    Json.parse (Json.print pn Json.new) = POut.err 0 "Not a valid json format" :=
  ⟨rfl, rfl⟩

/-- Claim C2. `print` of an empty Container is the single character `\x7d`
(not `\x7b\x7d`), and `print` of an empty Array is the single character
`]` (not `[]`): with zero children the trailing-comma `pop` removes the
opening bracket instead — for every rendering `pn` of number payloads. -/
theorem print_empty_container_defect (pn : F64 → List Char) :
    Json.print pn (Json.JSON []) = ['\x7d'] ∧
    Json.print pn (Json.ARRAY []) = [']'] :=
  ⟨rfl, rfl⟩

/-- Claim C3. `parse` does not return a truncation error on the truncated
document `b"{\"a\":1"`: after the number sub-parser consumes the final
digit, the object-body loop reads `input[*incr]` with the cursor equal to
the input length — an out-of-bounds index, i.e. a Rust panic (`crash`).
The empty input panics the same way at the initial dispatch read. -/
theorem parse_truncated_input_crashes :
    Json.parse ("\x7b\"a\":1".toList) = POut.crash ∧
    Json.parse [] = POut.crash :=
  ⟨rfl, rfl⟩

/-- Claim C4. A tree whose Container directly holds a raw (un-wrapped)
Container is obtainable through the public interface: the `{` branch of
the object-body loop pushes the nested container without an Entry
wrapper, so `parse(b"{{}}")` succeeds and returns exactly such a tree. -/
theorem parse_accepts_raw_container_in_container :
    Json.parse ("\x7b\x7b\x7d\x7d".toList) = POut.ok (Json.JSON [Json.JSON []]) :=
  rfl

/-- Claim C5, counterexample. Parsing the object body `b"{\"a\"}"`, whose
string is not followed by `:`, does not fail: it succeeds and returns a
Container holding the non-Entry Text child `"a"`. -/
theorem parse_standalone_string_not_error :
    Json.parse ("\x7b\"a\"\x7d".toList) = POut.ok (Json.JSON [Json.STRING ['a']]) :=
  rfl

/-- Claim C5, as amended. During object-body parsing a string not
immediately followed by `:` is accepted as a standalone Text child of the
Container (the string sub-parser returns a plain `STRING`, which the
object-body loop pushes unwrapped), also alongside ordinary
name-and-value pairs. -/
theorem parse_standalone_string_accepted :
    Json.parse ("\x7b\"hi\"\x7d".toList) =
      POut.ok (Json.JSON [Json.STRING ['h', 'i']]) ∧
    Json.parse ("\x7b\"a\",\"b\":null\x7d".toList) =
      POut.ok (Json.JSON [Json.STRING ['a'], Json.OBJECT ['b'] Json.NULL]) :=
  ⟨rfl, rfl⟩

/-- Claim C6. Structural legality of `add`: a raw Container pushed into a
Container always panics, whatever the receiver's current children and the
argument's children; a raw Container pushed into an Array — bare or
wrapped in an Entry — always succeeds and is appended; and `add` on a
scalar receiver, or on an Entry wrapping a scalar, always panics whatever
the argument. -/
theorem add_structural_legality :
    (∀ vs x, Json.add (Json.JSON vs) (Json.JSON x) = none) ∧
    (∀ vs x, Json.add (Json.ARRAY vs) (Json.JSON x)
      = some (Json.ARRAY (vs ++ [Json.JSON x]))) ∧
    (∀ nm vs x, Json.add (Json.OBJECT nm (Json.ARRAY vs)) (Json.JSON x)
      = some (Json.OBJECT nm (Json.ARRAY (vs ++ [Json.JSON x])))) ∧
    (∀ s v, Json.add (Json.STRING s) v = none) ∧
    (∀ q v, Json.add (Json.NUMBER q) v = none) ∧
    (∀ b v, Json.add (Json.BOOL b) v = none) ∧
    (∀ v, Json.add Json.NULL v = none) ∧
    (∀ nm s v, Json.add (Json.OBJECT nm (Json.STRING s)) v = none) ∧
    (∀ nm q v, Json.add (Json.OBJECT nm (Json.NUMBER q)) v = none) ∧
    (∀ nm b v, Json.add (Json.OBJECT nm (Json.BOOL b)) v = none) ∧
    (∀ nm v, Json.add (Json.OBJECT nm Json.NULL) v = none) := by
  refine ⟨fun vs x => rfl, fun vs x => rfl, fun nm vs x => rfl,
    fun s v => ?_, fun q v => ?_, fun b v => ?_, fun v => ?_,
    fun nm s v => ?_, fun nm q v => ?_, fun nm b v => ?_, fun nm v => ?_⟩ <;>
    cases v <;> rfl

/-- Claim C7. `get` on a Container returns the first Entry child, in
insertion order, whose name equals the search string (`List.find?` of the
name test — so duplicates resolve to the first match), and `none` exactly
when no Entry child matches; `get` on an Entry wrapping a Container
searches the inner Container identically, and `get_mut` selects the same
child in all these cases. -/
theorem get_returns_first_matching_entry :
    (∀ vs s, Json.get (Json.JSON vs) s = some (List.find? (isEntryNamed s) vs)) ∧
    (∀ nm vs s, Json.get (Json.OBJECT nm (Json.JSON vs)) s
      = some (List.find? (isEntryNamed s) vs)) ∧
    (∀ vs s, Json.get_mut (Json.JSON vs) s = some (List.find? (isEntryNamed s) vs)) ∧
    (∀ nm vs s, Json.get_mut (Json.OBJECT nm (Json.JSON vs)) s
      = some (List.find? (isEntryNamed s) vs)) ∧
    (∀ vs s, List.find? (isEntryNamed s) vs = none ↔
      ∀ v ∈ vs, isEntryNamed s v = false) := by
  refine ⟨fun vs s => ?_, fun nm vs s => ?_, fun vs s => ?_, fun nm vs s => ?_,
    fun vs s => ?_⟩
  · simp [Json.get, get_scan_eq_find]
  · simp [Json.get, get_scan_eq_find]
  · simp [Json.get_mut, get_mut_scan_eq_find]
  · simp [Json.get_mut, get_mut_scan_eq_find]
  · simp [List.find?_eq_none]

/-- Claim C8. `parse` skips no whitespace: whenever the first input
character is outside the dispatch table (`\x7b`, `"`, `[`, `t`, `f`, `n`,
ASCII digit), it fails immediately at offset 0 with the unrecognized-token
error, whatever the rest of the input. -/
theorem parse_rejects_nonstart (c : Char) (rest : List Char)
    (h : isTokenStart c = false) :
    Json.parse (c :: rest) = POut.err 0 "Not a valid json format" := by
  simp only [isTokenStart, Bool.or_eq_false_iff, decide_eq_false_iff_not] at h
  obtain ⟨⟨⟨⟨⟨⟨h1, h2⟩, h3⟩, h4⟩, h5⟩, h6⟩, h7⟩ := h
  simp [Json.parse, h1, h2, h3, h4, h5, h6, h7]

/-- Witness for claim C8 at the spec's concrete scenario `b" {}"`: a
leading space is not a token start, so `parse` errors at offset 0. -/
theorem parse_rejects_nonstart_witness :
    isTokenStart ' ' = false ∧
    Json.parse (' ' :: "\x7b\x7d".toList) = POut.err 0 "Not a valid json format" :=
  ⟨by decide, parse_rejects_nonstart ' ' ("\x7b\x7d".toList) (by decide)⟩

/-- Claim C9. Whenever `add` succeeds (exactly the legal receiver/child
pairs), the result is the receiver itself — same variant shape, same
Entry name — whose child list is the old child list with the child
appended at the end, so every previously present child keeps its value
and position, and no name-based validation is applied. -/
theorem add_appends_child (r c r' : Json) (h : Json.add r c = some r') :
    ∃ vs, childrenOf r = some vs ∧ r' = withChildren r (vs ++ [c]) := by
  cases r with
  | JSON vs => cases c <;> simp_all [Json.add, childrenOf, withChildren]
  | ARRAY vs => cases c <;> simp_all [Json.add, childrenOf, withChildren]
  | OBJECT nm ov =>
    cases ov <;> cases c <;> simp_all [Json.add, childrenOf, withChildren]
  | STRING s => simp [Json.add] at h
  | NUMBER q => simp [Json.add] at h
  | BOOL b => simp [Json.add] at h
  | NULL => simp [Json.add] at h

/-- Witness for claim C9: adding `NULL` to the empty Container appends it. -/
theorem add_appends_child_witness :
    ∃ vs, childrenOf (Json.JSON []) = some vs ∧
      Json.JSON [Json.NULL] = withChildren (Json.JSON []) (vs ++ [Json.NULL]) :=
  add_appends_child (Json.JSON []) Json.NULL (Json.JSON [Json.NULL]) rfl

/-- Claim C10. No value position accepts a leading `-`: at top level any
input starting with `-` is rejected at offset 0 (the dispatch table has
only the digits `0`–`9` for numbers), and the array-body and object-value
dispatch tables likewise reject `-` where a value is expected, as on the
concrete documents `b"-1"`, `b"[-1]"` and `b"{\"a\":-1}"`. -/
theorem parse_rejects_negative_numbers :
    (∀ rest, Json.parse ('-' :: rest) = POut.err 0 "Not a valid json format") ∧
    Json.parse ("-1".toList) = POut.err 0 "Not a valid json format" ∧
    Json.parse ("[-1]".toList) = POut.err 1 "Error parsing array." ∧
    Json.parse ("\x7b\"a\":-1\x7d".toList) = POut.err 5 "Error parsing object." :=
  ⟨fun rest => by simp [Json.parse, isDigitCh], rfl, rfl, rfl⟩
